import Mathlib

/-!
Shallow embedding of the YOLO inspection system in `src/app-2.py`
(class `YOLODetectionSystem` plus the Socket.IO handlers).

Conventions of the embedding:
* Python `float` timestamps are modelled as rationals (`ℚ`); only order
  and subtraction of timestamps matter to the program logic.
* The camera handle is `Option Unit` (`None` vs an open `cv2.VideoCapture`).
* `threading.Thread(target=self.generate_frames).start()` is modelled by a
  counter `threads` of spawned inspection-loop threads.
* The dynamically created attribute `self.last_detection_time`
  (`hasattr` check in `update_statistics`) is an `Option ℚ`: `none` means
  the attribute does not exist yet; the code materialises it to `0`.
* Frames are symbolic: an identifier plus the annotations drawn onto them.
-/

namespace App2

/-- A detection entry as built in `process_detections`
(`{'class': ..., 'confidence': ..., 'bbox': ...}`). -/
structure DetectionInfo where
  className : String
  confidence : ℚ
  bbox : List ℚ
  deriving DecidableEq, Repr

/-- A video frame, symbolically: its identity plus what has been drawn on
it (`cv2.rectangle`/`cv2.putText` per detection, and the status banner). -/
structure Frame where
  id : ℕ
  drawn : List DetectionInfo := []
  banner : Bool := false
  deriving DecidableEq, Repr

/-- The production counters `self.detection_results['stats']`. -/
structure Stats where
  total : ℕ
  pass : ℕ
  ng : ℕ
  deriving DecidableEq, Repr

/-- The mutable state of a `YOLODetectionSystem` instance. -/
structure SysState where
  camera : Option Unit
  is_running : Bool
  current_frame : Option Frame
  has_sg : Bool
  detections : List DetectionInfo
  fps : ℕ
  stats : Stats
  fps_counter : ℕ
  fps_start_time : ℚ
  last_detection_time : Option ℚ
  threads : ℕ
  deriving DecidableEq, Repr

/-- `__init__`: camera `None`, not running, zeroed statistics; `t0` is the
`time.time()` captured into `self.fps_start_time`. No
`last_detection_time` attribute exists yet, and no loop thread has been
spawned. -/
def initState (t0 : ℚ) : SysState :=
  { camera := none
    is_running := false
    current_frame := none
    has_sg := false
    detections := []
    fps := 0
    stats := { total := 0, pass := 0, ng := 0 }
    fps_counter := 0
    fps_start_time := t0
    last_detection_time := none
    threads := 0 }

/-- `update_statistics(self, has_sg)`: materialise `last_detection_time`
to `0` if absent, then commit one production event iff
`current_time - last_detection_time > 3.0`. -/
def update_statistics (s : SysState) (sg : Bool) (current_time : ℚ) : SysState :=
  let last := s.last_detection_time.getD 0
  let s0 := { s with last_detection_time := some last }
  if current_time - last > 3 then
    { s0 with
      stats :=
        { total := s0.stats.total + 1
          pass := if sg then s0.stats.pass else s0.stats.pass + 1
          ng := if sg then s0.stats.ng + 1 else s0.stats.ng }
      last_detection_time := some current_time }
  else
    s0

/-- `calculate_fps(self)`: bump the frame counter; once at least one
second has elapsed, publish it as the FPS reading and reset. -/
def calculate_fps (s : SysState) (current_time : ℚ) : SysState :=
  let s0 := { s with fps_counter := s.fps_counter + 1 }
  if current_time - s0.fps_start_time ≥ 1 then
    { s0 with fps := s0.fps_counter, fps_counter := 0, fps_start_time := current_time }
  else
    s0

/-- Folding a sequence of `update_statistics` calls
(a list of `(has_sg, current_time)` pairs) over a state. -/
def updateStatsSeq (s : SysState) (calls : List (Bool × ℚ)) : SysState :=
  calls.foldl (fun st c => update_statistics st c.1 c.2) s

/-- Python `str.lower()`: per-character lowercasing.  (Same function as
`String.toLower = String.map Char.toLower`, stated directly on the
character list so that it evaluates by kernel reduction.) -/
def strLower (s : String) : String := ⟨s.data.map Char.toLower⟩

/-- A raw YOLO box as read back in `process_detections`:
`box.cls`, `box.conf`, `box.xyxy`. -/
structure RawBox where
  cls : ℕ
  conf : ℚ
  xyxy : List ℚ
  deriving DecidableEq, Repr

/-- `class_name = self.model.names[class_id] if class_id < len(self.model.names)
else f"Class_{class_id}"`. -/
def className (names : List String) (b : RawBox) : String :=
  if h : b.cls < names.length then names.get ⟨b.cls, h⟩
  else "Class_" ++ toString b.cls

/-- The detection dictionary appended for one box. -/
def detInfo (names : List String) (b : RawBox) : DetectionInfo :=
  { className := className names b, confidence := b.conf, bbox := b.xyxy }

/-- `process_detections(self, results, frame)`: walk the boxes, build the
detection list, set `has_sg` when a class name lowercases to `"sg"`, and
draw each detection onto the frame.  Returns
`(has_sg, detections, frame)`. -/
def process_detections (names : List String) (boxes : List RawBox) (frame : Frame) :
    Bool × List DetectionInfo × Frame :=
  boxes.foldl
    (fun acc b =>
      let d := detInfo names b
      (acc.1 || strLower (className names b) == "sg",
       acc.2.1 ++ [d],
       { acc.2.2 with drawn := acc.2.2.drawn ++ [d] }))
    (false, [], frame)

/-- `initialize_camera(self, camera_index=0)`: opening the device is an
environment outcome `ok`; on success the handle is stored and `True`
returned, on failure (exception caught) `False` is returned. -/
def initialize_camera (ok : Bool) (s : SysState) : Bool × SysState :=
  if ok then (true, { s with camera := some () }) else (false, s)

/-- `start_detection(self)`: initialise the camera; on success set
`is_running = True`, spawn one more `generate_frames` thread and return
`True`; otherwise return `False`.  Note that the method never checks
whether the system is already running. -/
def start_detection (ok : Bool) (s : SysState) : Bool × SysState :=
  let r := initialize_camera ok s
  if r.1 then
    (true, { r.2 with is_running := true, threads := r.2.threads + 1 })
  else
    (false, r.2)

/-- `stop_detection(self)`: clear the running flag and release the
camera if one is held. -/
def stop_detection (s : SysState) : SysState :=
  let s0 := { s with is_running := false }
  if s0.camera.isSome then { s0 with camera := none } else s0

/-- `restart_detection(self)`: `stop_detection()`, a settle delay (no
state effect), then `start_detection()`. -/
def restart_detection (ok : Bool) (s : SysState) : Bool × SysState :=
  start_detection ok (stop_detection s)

/-- Outcome of the model call `self.model(frame, conf=0.5)`: either a
list of boxes or a raised exception. -/
inductive InferResult where
  | ok (boxes : List RawBox)
  | raises
  deriving DecidableEq, Repr

/-- Result of one pass through the `generate_frames` while-loop:
continue with the next iteration, or leave the loop. -/
inductive LoopStep where
  | cont (s : SysState)
  | exit (s : SysState)
  deriving DecidableEq, Repr

/-- The payload of the `detection_result` Socket.IO event. -/
structure DetectionResultEvent where
  status : String
  pass_count : ℕ
  ng_count : ℕ
  total_count : ℕ
  ng_rate : ℚ
  deriving DecidableEq, Repr

/-- `round(x, 1)`: round to one decimal digit. -/
def round1 (x : ℚ) : ℚ := (round (10 * x) : ℤ) / 10

/-- The `detection_result` payload built in `generate_frames`:
`ng_rate = round(ng / max(1, total) * 100, 1)`. -/
def detectionResultEvent (sg : Bool) (st : Stats) : DetectionResultEvent :=
  { status := if sg then "NG" else "PASS"
    pass_count := st.pass
    ng_count := st.ng
    total_count := st.total
    ng_rate := round1 ((st.ng : ℚ) / ((max 1 st.total : ℕ) : ℚ) * 100) }

/-- One pass through the `generate_frames` while-loop.  The loop guard
`self.is_running and self.camera is not None` is checked first; a failed
`camera.read()` (`readResult = none`) breaks out of the loop; inside the
`try` block, a raising model call is caught by the `except` handler,
which stores the raw frame and continues; on a successful model call the
frame is processed, statistics and FPS updated, the annotated frame
(status banner added) stored, and the loop continues. -/
def generateFramesStep (names : List String) (s : SysState)
    (readResult : Option Frame) (inf : InferResult) (now : ℚ) : LoopStep :=
  if s.is_running && s.camera.isSome then
    match readResult with
    | none => .exit s
    | some frame =>
      match inf with
      | .raises => .cont { s with current_frame := some frame }
      | .ok boxes =>
        let r := process_detections names boxes frame
        let s1 := { s with has_sg := r.1, detections := r.2.1 }
        let s2 := update_statistics s1 r.1 now
        let s3 := calculate_fps s2 now
        .cont { s3 with current_frame := some { r.2.2 with banner := true } }
  else
    .exit s

/-- A lifecycle-controller operation (the three Socket.IO command
handlers); `ok` is the environment's camera-initialisation outcome. -/
inductive LifeOp where
  | start (ok : Bool)
  | stop
  | restart (ok : Bool)
  deriving DecidableEq, Repr

/-- Apply one lifecycle operation to the state. -/
def applyLife (op : LifeOp) (s : SysState) : SysState :=
  match op with
  | .start ok => (start_detection ok s).2
  | .stop => stop_detection s
  | .restart ok => (restart_detection ok s).2

/-- Any state-mutating operation of the system: a statistics update, an
FPS tick, or a lifecycle command. -/
inductive SysOp where
  | update (sg : Bool) (now : ℚ)
  | fpsTick (now : ℚ)
  | start (ok : Bool)
  | stop
  | restart (ok : Bool)
  deriving DecidableEq, Repr

/-- Apply one system operation to the state. -/
def applySysOp (op : SysOp) (s : SysState) : SysState :=
  match op with
  | .update sg now => update_statistics s sg now
  | .fpsTick now => calculate_fps s now
  | .start ok => (start_detection ok s).2
  | .stop => stop_detection s
  | .restart ok => (restart_detection ok s).2

/-! ## Basic lemmas about the statistics tracker -/

/-- A call inside the debounce window (at most 3 seconds after the
recorded `last_detection_time`) leaves the state completely unchanged. -/
theorem update_statistics_of_not_commit (s : SysState) (sg : Bool) (t l : ℚ)
    (hl : s.last_detection_time = some l) (hle : t - l ≤ 3) :
    update_statistics s sg t = s := by
  simp only [update_statistics, hl, Option.getD_some]
  rw [if_neg (not_lt.mpr hle), ← hl]

/-- A call outside the debounce window commits one production event. -/
theorem update_statistics_commit (s : SysState) (sg : Bool) (t : ℚ)
    (h : t - s.last_detection_time.getD 0 > 3) :
    update_statistics s sg t =
      { s with
        stats :=
          { total := s.stats.total + 1
            pass := if sg then s.stats.pass else s.stats.pass + 1
            ng := if sg then s.stats.ng + 1 else s.stats.ng }
        last_detection_time := some t } := by
  simp only [update_statistics]
  rw [if_pos h]

/-- A whole sequence of in-window calls is a no-op. -/
theorem updateStatsSeq_noop (t1 : ℚ) :
    ∀ (rest : List (Bool × ℚ)) (s : SysState),
      s.last_detection_time = some t1 → (∀ c ∈ rest, c.2 - t1 ≤ 3) →
      updateStatsSeq s rest = s := by
  intro rest
  induction rest with
  | nil => intro s _ _; rfl
  | cons c cs ih =>
    intro s hl hw
    have hc : update_statistics s c.1 c.2 = s :=
      update_statistics_of_not_commit s c.1 c.2 t1 hl (hw c (List.mem_cons_self c cs))
    calc updateStatsSeq s (c :: cs)
        = updateStatsSeq (update_statistics s c.1 c.2) cs := rfl
      _ = updateStatsSeq s cs := by rw [hc]
      _ = s := ih s hl fun d hd => hw d (List.mem_cons_of_mem c hd)

/-- One `update_statistics` call preserves `total = pass + ng`. -/
theorem statsInv_update (s : SysState) (sg : Bool) (t : ℚ)
    (h : s.stats.total = s.stats.pass + s.stats.ng) :
    (update_statistics s sg t).stats.total =
      (update_statistics s sg t).stats.pass + (update_statistics s sg t).stats.ng := by
  simp only [update_statistics]
  split
  · cases sg <;> simp <;> omega
  · simpa using h

/-! ## Basic lemmas about the lifecycle controller -/

/-- `stop_detection` always ends with the running flag cleared and no
camera handle, touching nothing else. -/
theorem stop_detection_eq (s : SysState) :
    stop_detection s = { s with is_running := false, camera := none } := by
  simp only [stop_detection]
  cases hc : s.camera with
  | none => simp only [hc, Option.isSome_none, Bool.false_eq_true, if_neg]; rw [← hc, ite_self]
  | some u => simp only [hc, Option.isSome_some, if_pos]

/-- No lifecycle operation changes the production counters. -/
theorem applyLife_stats (op : LifeOp) (s : SysState) :
    (applyLife op s).stats = s.stats := by
  have hstart : ∀ (ok : Bool) (t : SysState), ((start_detection ok t).2).stats = t.stats :=
    fun ok t => by cases ok <;> rfl
  have hstop : ∀ t : SysState, (stop_detection t).stats = t.stats :=
    fun t => by rw [stop_detection_eq]
  cases op with
  | start ok => exact hstart ok s
  | stop => exact hstop s
  | restart ok => exact (hstart ok (stop_detection s)).trans (hstop s)

/-! ## Claims -/

/-- C3: starting from the zeroed counters of `__init__`, after every
sequence of completed `update_statistics` calls (committing or not) the
counters satisfy `total = pass + ng`. -/
theorem claim_C3 (t0 : ℚ) (calls : List (Bool × ℚ)) :
    (updateStatsSeq (initState t0) calls).stats.total =
      (updateStatsSeq (initState t0) calls).stats.pass +
        (updateStatsSeq (initState t0) calls).stats.ng := by
  suffices h : ∀ (cs : List (Bool × ℚ)) (s : SysState),
      s.stats.total = s.stats.pass + s.stats.ng →
      (updateStatsSeq s cs).stats.total =
        (updateStatsSeq s cs).stats.pass + (updateStatsSeq s cs).stats.ng from
    h calls (initState t0) rfl
  intro cs
  induction cs with
  | nil => intro s hs; exact hs
  | cons c cs ih =>
    intro s hs
    exact ih (update_statistics s c.1 c.2) (statsInv_update s c.1 c.2 hs)

/-- C7: `stop_detection`, `start_detection` and `restart_detection`
never change the production counters: after any sequence of lifecycle
operations the counters equal the ones before. -/
theorem claim_C7 (s : SysState) (ops : List LifeOp) :
    (ops.foldl (fun st op => applyLife op st) s).stats = s.stats := by
  induction ops generalizing s with
  | nil => rfl
  | cons op ops ih => exact (ih (applyLife op s)).trans (applyLife_stats op s)

/-- C9: `stop_detection` is idempotent — stopping twice equals stopping
once, and in the stopped state (not running, no camera held) it is a
no-op. -/
theorem claim_C9 (s : SysState) :
    stop_detection (stop_detection s) = stop_detection s ∧
    (s.is_running = false ∧ s.camera = none → stop_detection s = s) := by
  constructor
  · rw [stop_detection_eq, stop_detection_eq]
  · rintro ⟨h1, h2⟩
    rw [stop_detection_eq, ← h1, ← h2]

/-- Witness for C9 at the freshly initialised (stopped) state. -/
theorem claim_C9_witness :
    stop_detection (stop_detection (initState 0)) = stop_detection (initState 0) ∧
    stop_detection (initState 0) = initState 0 :=
  ⟨(claim_C9 (initState 0)).1, (claim_C9 (initState 0)).2 ⟨rfl, rfl⟩⟩

/-- A state in which the system is already running: one loop thread has
been spawned, the camera is held, `is_running` is set. -/
def runningState : SysState :=
  { initState 0 with is_running := true, camera := some (), threads := 1 }

/-- C1 counterexample: in a running state (one loop thread spawned),
`start_detection` does not return the state unchanged — it spawns a
second `generate_frames` loop thread, so two Inspection Loop instances
are active in the process. -/
theorem claim_C1_counterexample :
    runningState.is_running = true ∧ runningState.threads = 1 ∧
    (start_detection true runningState).2.threads = 2 ∧
    (start_detection true runningState).2 ≠ runningState := by
  refine ⟨rfl, rfl, rfl, fun h => ?_⟩
  exact absurd (congrArg SysState.threads h) (by decide)

/-- C1 amended: `start_detection` never checks the running flag; called
while already running (with the camera opening successfully) it returns
`True` and keeps `is_running = true`, but re-initialises the camera and
spawns one additional Inspection Loop thread.  The counters are
unchanged; the at-most-one-loop invariant is not enforced. -/
theorem claim_C1_amended (s : SysState) (_hrun : s.is_running = true) :
    (start_detection true s).1 = true ∧
    (start_detection true s).2.is_running = true ∧
    (start_detection true s).2.threads = s.threads + 1 ∧
    (start_detection true s).2.stats = s.stats ∧
    (start_detection true s).2.camera = some () :=
  ⟨rfl, rfl, rfl, rfl, rfl⟩

/-- Witness for the amended C1 at the concrete running state. -/
theorem claim_C1_amended_witness :
    (start_detection true runningState).1 = true ∧
    (start_detection true runningState).2.is_running = true ∧
    (start_detection true runningState).2.threads = runningState.threads + 1 ∧
    (start_detection true runningState).2.stats = runningState.stats ∧
    (start_detection true runningState).2.camera = some () :=
  claim_C1_amended runningState rfl

/-- C2: in a sequence of `update_statistics` calls whose first call
commits (it is more than 3 seconds past the recorded last event time)
and whose remaining timestamps all lie within 3.0 seconds after that
committed event time, exactly the first call commits: it increments
`total` by one and sets `last_detection_time`, and every other call in
the window leaves the state (counters and last event time) unchanged. -/
theorem claim_C2 (s : SysState) (b1 : Bool) (t1 : ℚ) (rest : List (Bool × ℚ))
    (hcommit : t1 - s.last_detection_time.getD 0 > 3)
    (hwin : ∀ c ∈ rest, c.2 - t1 ≤ 3) :
    updateStatsSeq s ((b1, t1) :: rest) = update_statistics s b1 t1 ∧
    (update_statistics s b1 t1).stats.total = s.stats.total + 1 ∧
    (update_statistics s b1 t1).last_detection_time = some t1 ∧
    ∀ c ∈ rest,
      update_statistics (update_statistics s b1 t1) c.1 c.2 =
        update_statistics s b1 t1 := by
  have hc := update_statistics_commit s b1 t1 hcommit
  have hlast : (update_statistics s b1 t1).last_detection_time = some t1 := by rw [hc]
  refine ⟨?_, by rw [hc], hlast, ?_⟩
  · calc updateStatsSeq s ((b1, t1) :: rest)
        = updateStatsSeq (update_statistics s b1 t1) rest := rfl
      _ = update_statistics s b1 t1 := updateStatsSeq_noop t1 rest _ hlast hwin
  · intro c hcm
    exact update_statistics_of_not_commit _ c.1 c.2 t1 hlast (hwin c hcm)

/-- Witness for C2: from the fresh state, a committing call at `t = 10`
followed by calls at `t = 11` and `t = 12.1` inside its window. -/
theorem claim_C2_witness :
    updateStatsSeq (initState 0) [(true, 10), (false, 11), (true, 121 / 10)] =
      update_statistics (initState 0) true 10 ∧
    (update_statistics (initState 0) true 10).stats.total =
      (initState 0).stats.total + 1 ∧
    (update_statistics (initState 0) true 10).last_detection_time = some 10 ∧
    ∀ c ∈ [((false : Bool), (11 : ℚ)), (true, 121 / 10)],
      update_statistics (update_statistics (initState 0) true 10) c.1 c.2 =
        update_statistics (initState 0) true 10 :=
  claim_C2 (initState 0) true 10 [(false, 11), (true, 121 / 10)]
    (by norm_num [initState])
    (by intro c hcm; fin_cases hcm <;> norm_num)

/-- C4 counterexample: a first-ever call (no `last_detection_time`
attribute yet) with timestamp `now = 1` does not commit, because the
attribute is materialised to `0` and `1 - 0 > 3.0` is false — so the
first call does not commit for every timestamp. -/
theorem claim_C4_counterexample :
    (initState 0).last_detection_time = none ∧
    (update_statistics (initState 0) false 1).stats = (initState 0).stats ∧
    (initState 0).stats.total = 0 := by
  refine ⟨rfl, ?_, rfl⟩
  simp only [update_statistics]
  rw [if_neg (by norm_num [initState])]

/-- C4 amended: the first-ever `update_statistics` call commits exactly
when `now > 3.0` (the missing attribute is initialised to `0`, not to
an infinitely-past time); wall-clock epoch timestamps always satisfy
this.  A committing first call increments `total` and exactly one of
`ng`/`pass` according to `has_sg`. -/
theorem claim_C4_amended (s : SysState) (sg : Bool) (now : ℚ)
    (hfirst : s.last_detection_time = none) (hnow : now > 3) :
    (update_statistics s sg now).stats.total = s.stats.total + 1 ∧
    (update_statistics s sg now).stats.ng =
      (if sg then s.stats.ng + 1 else s.stats.ng) ∧
    (update_statistics s sg now).stats.pass =
      (if sg then s.stats.pass else s.stats.pass + 1) ∧
    (update_statistics s sg now).last_detection_time = some now := by
  have h : now - s.last_detection_time.getD 0 > 3 := by
    rw [hfirst]
    simpa using hnow
  rw [update_statistics_commit s sg now h]
  exact ⟨rfl, rfl, rfl, rfl⟩

/-- Witness for the amended C4: first call at epoch-style time `10`. -/
theorem claim_C4_amended_witness :
    (update_statistics (initState 0) true 10).stats.total =
      (initState 0).stats.total + 1 ∧
    (update_statistics (initState 0) true 10).stats.ng =
      (if true then (initState 0).stats.ng + 1 else (initState 0).stats.ng) ∧
    (update_statistics (initState 0) true 10).stats.pass =
      (if true then (initState 0).stats.pass else (initState 0).stats.pass + 1) ∧
    (update_statistics (initState 0) true 10).last_detection_time = some 10 :=
  claim_C4_amended (initState 0) true 10 rfl (by norm_num)

/-! ## Detection processing -/

/-- Closed form of the `process_detections` fold for an arbitrary
accumulator. -/
theorem process_detections_go (names : List String) :
    ∀ (boxes : List RawBox) (acc : Bool × List DetectionInfo × Frame),
      boxes.foldl
        (fun acc b =>
          let d := detInfo names b
          (acc.1 || strLower (className names b) == "sg",
           acc.2.1 ++ [d],
           { acc.2.2 with drawn := acc.2.2.drawn ++ [d] }))
        acc =
      (acc.1 || boxes.any (fun b => strLower (className names b) == "sg"),
       acc.2.1 ++ boxes.map (detInfo names),
       { acc.2.2 with drawn := acc.2.2.drawn ++ boxes.map (detInfo names) }) := by
  intro boxes
  induction boxes with
  | nil => intro acc; simp
  | cons b bs ih =>
    intro acc
    rw [List.foldl_cons, ih]
    simp [Bool.or_assoc, List.append_assoc]

/-- Closed form of `process_detections`. -/
theorem process_detections_eq (names : List String) (boxes : List RawBox) (frame : Frame) :
    process_detections names boxes frame =
      (boxes.any (fun b => strLower (className names b) == "sg"),
       boxes.map (detInfo names),
       { frame with drawn := frame.drawn ++ boxes.map (detInfo names) }) := by
  unfold process_detections
  rw [process_detections_go]
  simp

/-- C5: `has_sg` is true iff some produced detection's class name equals
`"sg"` after lowercasing (case-insensitive exact match); a single
detection labelled `"sg"` with confidence `0.9` yields `has_sg = true`
and its committed event increments `ng`; an empty detection list yields
`has_sg = false` and its committed event increments `pass`. -/
theorem claim_C5 :
    (∀ (names : List String) (boxes : List RawBox) (frame : Frame),
        (process_detections names boxes frame).1 = true ↔
          ∃ d ∈ (process_detections names boxes frame).2.1,
            strLower d.className = "sg") ∧
    (process_detections ["sg"] [⟨0, 9 / 10, [0, 0, 10, 10]⟩] ⟨0, [], false⟩).1 = true ∧
    (update_statistics (initState 0)
        (process_detections ["sg"] [⟨0, 9 / 10, [0, 0, 10, 10]⟩] ⟨0, [], false⟩).1
        10).stats.ng = (initState 0).stats.ng + 1 ∧
    (process_detections ["sg"] [] ⟨0, [], false⟩).1 = false ∧
    (update_statistics (initState 0)
        (process_detections ["sg"] [] ⟨0, [], false⟩).1 10).stats.pass =
      (initState 0).stats.pass + 1 := by
  refine ⟨?_, ?_, ?_, ?_, ?_⟩
  · intro names boxes frame
    rw [process_detections_eq]
    simp [List.any_eq_true, detInfo]
  · decide
  · have h1 : (process_detections ["sg"] [⟨0, 9 / 10, [0, 0, 10, 10]⟩] ⟨0, [], false⟩).1
        = true := by decide
    rw [h1, update_statistics_commit _ _ _ (by norm_num [initState])]
    rfl
  · decide
  · have h2 : (process_detections ["sg"] [] ⟨0, [], false⟩).1 = false := rfl
    rw [h2, update_statistics_commit _ _ _ (by norm_num [initState])]
    rfl

/-! ## The pushed event -/

/-- NG-rate formula as the spec states it:
`ng_rate = round(ng / max(1, total) * 100, 1)`. -/
def ngRateSpec (ngc totalc : ℕ) : ℚ :=
  round1 ((ngc : ℚ) / ((max 1 totalc : ℕ) : ℚ) * 100)

/-- C6: the `ng_rate` field of the pushed `detection_result` event equals
`round(ng / max(1, total) * 100, 1)` for every counter state; on
`{pass: 3, ng: 1, total: 4}` it is `25.0`, and for `total = 0` the
division is guarded by `max(1, total)` so it evaluates to `100 * ng`. -/
theorem claim_C6 :
    (∀ (sg : Bool) (st : Stats),
        (detectionResultEvent sg st).ng_rate = ngRateSpec st.ng st.total) ∧
    (detectionResultEvent false ⟨4, 3, 1⟩).ng_rate = 25 ∧
    (∀ (sg : Bool) (n : ℕ),
        (detectionResultEvent sg ⟨0, 0, n⟩).ng_rate = ((100 * n : ℕ) : ℚ)) := by
  refine ⟨fun sg st => rfl, ?_, ?_⟩
  · show round1 ((1 : ℚ) / ((max 1 4 : ℕ) : ℚ) * 100) = 25
    unfold round1
    norm_num
  · intro sg n
    show round1 ((n : ℚ) / ((max 1 0 : ℕ) : ℚ) * 100) = ((100 * n : ℕ) : ℚ)
    unfold round1
    rw [show (max 1 0 : ℕ) = 1 from rfl]
    have h : (10 : ℚ) * ((n : ℚ) / ((1 : ℕ) : ℚ) * 100) = ((1000 * n : ℕ) : ℚ) := by
      push_cast
      ring
    rw [h, round_natCast]
    push_cast
    ring

/-! ## The inspection loop -/

/-- C8: in a loop iteration where the model call raises, the exception
is caught inside the loop body: the raw unannotated frame becomes
`current_frame`, nothing else changes, and the iteration ends with
`cont` (the loop proceeds to its next iteration; the process does not
terminate). -/
theorem claim_C8 (names : List String) (s : SysState) (frame : Frame) (now : ℚ)
    (hrun : s.is_running = true) (hcam : s.camera = some ()) :
    generateFramesStep names s (some frame) InferResult.raises now =
      LoopStep.cont { s with current_frame := some frame } := by
  simp [generateFramesStep, hrun, hcam]

/-- Witness for C8 at a concrete running state and frame. -/
theorem claim_C8_witness :
    generateFramesStep [] runningState (some ⟨5, [], false⟩) InferResult.raises 0 =
      LoopStep.cont { runningState with current_frame := some ⟨5, [], false⟩ } :=
  claim_C8 [] runningState ⟨5, [], false⟩ 0 rfl rfl

/-! ## Monotonicity of the counters -/

/-- `update_statistics` either leaves the counters alone or commits:
`total` goes up by one and exactly one of `ng`/`pass` goes up by one. -/
theorem update_statistics_stats_cases (s : SysState) (sg : Bool) (t : ℚ) :
    (update_statistics s sg t).stats = s.stats ∨
    ((update_statistics s sg t).stats.total = s.stats.total + 1 ∧
      ((sg = true ∧ (update_statistics s sg t).stats.ng = s.stats.ng + 1 ∧
          (update_statistics s sg t).stats.pass = s.stats.pass) ∨
       (sg = false ∧ (update_statistics s sg t).stats.pass = s.stats.pass + 1 ∧
          (update_statistics s sg t).stats.ng = s.stats.ng))) := by
  by_cases h : t - s.last_detection_time.getD 0 > 3
  · right
    rw [update_statistics_commit s sg t h]
    cases sg
    · exact ⟨rfl, Or.inr ⟨rfl, rfl, rfl⟩⟩
    · exact ⟨rfl, Or.inl ⟨rfl, rfl, rfl⟩⟩
  · left
    simp only [update_statistics]
    rw [if_neg h]

/-- `calculate_fps` never touches the counters. -/
theorem calculate_fps_stats (s : SysState) (t : ℚ) :
    (calculate_fps s t).stats = s.stats := by
  simp only [calculate_fps]
  split <;> rfl

/-- C10: no operation of the system decreases any counter, and the only
operation that changes the counters is a committing `update_statistics`,
which increments `total` by 1 and exactly one of `pass`/`ng` by 1. -/
theorem claim_C10 (op : SysOp) (s : SysState) :
    (s.stats.total ≤ (applySysOp op s).stats.total ∧
     s.stats.pass ≤ (applySysOp op s).stats.pass ∧
     s.stats.ng ≤ (applySysOp op s).stats.ng) ∧
    ((applySysOp op s).stats = s.stats ∨
      ∃ sg now, op = SysOp.update sg now ∧
        (applySysOp op s).stats.total = s.stats.total + 1 ∧
        ((sg = true ∧ (applySysOp op s).stats.ng = s.stats.ng + 1 ∧
            (applySysOp op s).stats.pass = s.stats.pass) ∨
         (sg = false ∧ (applySysOp op s).stats.pass = s.stats.pass + 1 ∧
            (applySysOp op s).stats.ng = s.stats.ng))) := by
  cases op with
  | update sg now =>
    have happ : applySysOp (SysOp.update sg now) s = update_statistics s sg now := rfl
    rw [happ]
    rcases update_statistics_stats_cases s sg now with h | ⟨ht, hc⟩
    · rw [h]
      exact ⟨⟨le_refl _, le_refl _, le_refl _⟩, Or.inl rfl⟩
    · refine ⟨?_, Or.inr ⟨sg, now, rfl, ht, hc⟩⟩
      rcases hc with ⟨_, hng, hp⟩ | ⟨_, hp, hng⟩ <;> refine ⟨?_, ?_, ?_⟩ <;> omega
  | fpsTick now =>
    have happ : applySysOp (SysOp.fpsTick now) s = calculate_fps s now := rfl
    rw [happ, calculate_fps_stats]
    exact ⟨⟨le_refl _, le_refl _, le_refl _⟩, Or.inl rfl⟩
  | start ok =>
    have h : (applySysOp (SysOp.start ok) s).stats = s.stats :=
      applyLife_stats (LifeOp.start ok) s
    rw [h]
    exact ⟨⟨le_refl _, le_refl _, le_refl _⟩, Or.inl rfl⟩
  | stop =>
    have h : (applySysOp SysOp.stop s).stats = s.stats := applyLife_stats LifeOp.stop s
    rw [h]
    exact ⟨⟨le_refl _, le_refl _, le_refl _⟩, Or.inl rfl⟩
  | restart ok =>
    have h : (applySysOp (SysOp.restart ok) s).stats = s.stats :=
      applyLife_stats (LifeOp.restart ok) s
    rw [h]
    exact ⟨⟨le_refl _, le_refl _, le_refl _⟩, Or.inl rfl⟩

end App2
